import Mathlib

/-!
Verification development for the non-linearity compliance engine
(`src/nonlinearity`): a shallow embedding of the core pipeline
(limits, linearisation, deviations, reductions, flags, PSI severity,
metric selection, failure classification) together with the two
analyses (recovery times, non-stationarity score).

Numeric model: the Python code computes with IEEE floats; the only
non-finite values it can produce come from division by an exactly-zero
denominator (`max(influent) - min(effluent)`).  We model values by
`PyVal`: an exact rational together with `inf`, `ninf` and `nan`,
with the IEEE rules for the operations the code performs.  All claims
settled here depend only on signs and comparisons that are robust
under rounding at the concrete inputs used.
-/

/-- Extended numeric value: exact rational, +infinity, -infinity, or NaN. -/
inductive PyVal where
  | rat (q : ℚ)
  | inf
  | ninf
  | nan
deriving DecidableEq, Repr

namespace PyVal

/-- IEEE subtraction on extended values. -/
def sub : PyVal → PyVal → PyVal
  | nan, _ => nan
  | _, nan => nan
  | rat a, rat b => rat (a - b)
  | rat _, inf => ninf
  | rat _, ninf => inf
  | inf, rat _ => inf
  | ninf, rat _ => ninf
  | inf, ninf => inf
  | ninf, inf => ninf
  | inf, inf => nan
  | ninf, ninf => nan

/-- IEEE addition on extended values. -/
def add : PyVal → PyVal → PyVal
  | nan, _ => nan
  | _, nan => nan
  | rat a, rat b => rat (a + b)
  | rat _, inf => inf
  | rat _, ninf => ninf
  | inf, rat _ => inf
  | ninf, rat _ => ninf
  | inf, inf => inf
  | ninf, ninf => ninf
  | inf, ninf => nan
  | ninf, inf => nan

/-- IEEE negation on extended values. -/
def neg : PyVal → PyVal
  | nan => nan
  | rat a => rat (-a)
  | inf => ninf
  | ninf => inf

/-- IEEE multiplication on extended values (0 * inf = NaN). -/
def mul : PyVal → PyVal → PyVal
  | nan, _ => nan
  | _, nan => nan
  | rat a, rat b => rat (a * b)
  | rat a, inf => if 0 < a then inf else if a < 0 then ninf else nan
  | rat a, ninf => if 0 < a then ninf else if a < 0 then inf else nan
  | inf, rat a => if 0 < a then inf else if a < 0 then ninf else nan
  | ninf, rat a => if 0 < a then ninf else if a < 0 then inf else nan
  | inf, inf => inf
  | inf, ninf => ninf
  | ninf, inf => ninf
  | ninf, ninf => inf

/-- IEEE division on extended values; division of a finite value by
exact zero yields a signed infinity (or NaN for 0/0), as numpy does
(with only a runtime warning, no exception). -/
def div : PyVal → PyVal → PyVal
  | nan, _ => nan
  | _, nan => nan
  | rat a, rat b =>
      if b = 0 then (if 0 < a then inf else if a < 0 then ninf else nan)
      else rat (a / b)
  | rat _, inf => rat 0
  | rat _, ninf => rat 0
  | inf, rat b => if 0 ≤ b then inf else ninf
  | ninf, rat b => if 0 ≤ b then ninf else inf
  | inf, inf => nan
  | inf, ninf => nan
  | ninf, inf => nan
  | ninf, ninf => nan

/-- IEEE absolute value on extended values. -/
def pabs : PyVal → PyVal
  | nan => nan
  | rat a => rat |a|
  | inf => inf
  | ninf => inf

/-- The comparison `x >= 0` as evaluated on floats: False when x is NaN. -/
def ge0 : PyVal → Bool
  | rat a => decide (0 ≤ a)
  | inf => true
  | ninf => false
  | nan => false

/-- The comparison `x < 0` as evaluated on floats: False when x is NaN. -/
def lt0 : PyVal → Bool
  | rat a => decide (a < 0)
  | inf => false
  | ninf => true
  | nan => false

/-- The comparison `x < y` as evaluated on floats: False when either is NaN. -/
def ltB : PyVal → PyVal → Bool
  | nan, _ => false
  | _, nan => false
  | rat a, rat b => decide (a < b)
  | rat _, inf => true
  | rat _, ninf => false
  | inf, rat _ => false
  | ninf, rat _ => true
  | inf, inf => false
  | inf, ninf => false
  | ninf, inf => true
  | ninf, ninf => false

/-- Row-wise minimum of two columns as pandas `.min(axis=1)` computes it:
NaN entries are skipped (the other value wins); NaN only if both are NaN. -/
def pmin : PyVal → PyVal → PyVal
  | nan, b => b
  | a, nan => a
  | rat a, rat b => rat (min a b)
  | rat a, inf => rat a
  | rat _, ninf => ninf
  | inf, rat b => rat b
  | inf, inf => inf
  | inf, ninf => ninf
  | ninf, _ => ninf

/-- Row-wise maximum of two columns as pandas `.max(axis=1)` computes it:
NaN entries are skipped. -/
def pmax : PyVal → PyVal → PyVal
  | nan, b => b
  | a, nan => a
  | rat a, rat b => rat (max a b)
  | rat _, inf => inf
  | rat a, ninf => rat a
  | inf, _ => inf
  | ninf, rat b => rat b
  | ninf, inf => inf
  | ninf, ninf => ninf

end PyVal

/-- Embeds `ComplianceLimits` from `config.py`, with its default field values
(`bod_pc` = 0.7, `cod_pc` = 0.75 as exact rationals). -/
structure ComplianceLimits where
  bod_upper : ℚ := 50
  bod_lower : ℚ := 25
  cod_upper : ℚ := 250
  cod_lower : ℚ := 125
  bod_pc : ℚ := 7/10
  cod_pc : ℚ := 3/4
deriving DecidableEq, Repr

/-- The default limits, `ComplianceLimits()`. -/
def defaultLimits : ComplianceLimits := {}

/-- One raw input row: the six required columns of a scenario Dataset
(`REQUIRED_COLUMNS`); `snh1`/`snh31` are carried but unused by the core. -/
structure RawRow where
  bod1 : ℚ
  cod1 : ℚ
  bod31 : ℚ
  cod31 : ℚ
  snh1 : ℚ
  snh31 : ℚ
deriving DecidableEq, Repr

/-- Embeds `Series.min()` over a raw numeric column (NaN on an empty frame). -/
def seriesMin (l : List ℚ) : PyVal :=
  match l with
  | [] => PyVal.nan
  | x :: xs => PyVal.rat (xs.foldl min x)

/-- Embeds `Series.max()` over a raw numeric column (NaN on an empty frame). -/
def seriesMax (l : List ℚ) : PyVal :=
  match l with
  | [] => PyVal.nan
  | x :: xs => PyVal.rat (xs.foldl max x)

/-- Embeds `calculate_bod_limits` (compliance.py): the two Dataset-level scalars
`(BODut, BODlt)`, each `abs((limit - min(bod31)) / (max(bod1) - min(bod31)))`. -/
def calculate_bod_limits (df : List RawRow) (limits : ComplianceLimits) : PyVal × PyVal :=
  let minE := seriesMin (df.map RawRow.bod31)
  let maxI := seriesMax (df.map RawRow.bod1)
  let denom := PyVal.sub maxI minE
  (PyVal.pabs (PyVal.div (PyVal.sub (PyVal.rat limits.bod_upper) minE) denom),
   PyVal.pabs (PyVal.div (PyVal.sub (PyVal.rat limits.bod_lower) minE) denom))

/-- Embeds `calculate_cod_limits` (compliance.py): `(CODut, CODlt)`. -/
def calculate_cod_limits (df : List RawRow) (limits : ComplianceLimits) : PyVal × PyVal :=
  let minE := seriesMin (df.map RawRow.cod31)
  let maxI := seriesMax (df.map RawRow.cod1)
  let denom := PyVal.sub maxI minE
  (PyVal.pabs (PyVal.div (PyVal.sub (PyVal.rat limits.cod_upper) minE) denom),
   PyVal.pabs (PyVal.div (PyVal.sub (PyVal.rat limits.cod_lower) minE) denom))

/-- Embeds `linearise_bod` (linearisation.py): per-row `(LIN_BODe, LIN_BODi)`,
each `abs((value - min(bod31)) / (max(bod1) - min(bod31)))`. -/
def linearise_bod (df : List RawRow) : List (PyVal × PyVal) :=
  let minE := seriesMin (df.map RawRow.bod31)
  let maxI := seriesMax (df.map RawRow.bod1)
  let denom := PyVal.sub maxI minE
  df.map (fun r =>
    (PyVal.pabs (PyVal.div (PyVal.sub (PyVal.rat r.bod31) minE) denom),
     PyVal.pabs (PyVal.div (PyVal.sub (PyVal.rat r.bod1) minE) denom)))

/-- Embeds `linearise_cod` (linearisation.py): per-row `(LIN_CODe, LIN_CODi)`. -/
def linearise_cod (df : List RawRow) : List (PyVal × PyVal) :=
  let minE := seriesMin (df.map RawRow.cod31)
  let maxI := seriesMax (df.map RawRow.cod1)
  let denom := PyVal.sub maxI minE
  df.map (fun r =>
    (PyVal.pabs (PyVal.div (PyVal.sub (PyVal.rat r.cod31) minE) denom),
     PyVal.pabs (PyVal.div (PyVal.sub (PyVal.rat r.cod1) minE) denom)))

/-- Columns present after limits and linearisation: the four broadcast
limit scalars and the four per-row linearised concentrations. -/
structure LinRow where
  BODut : PyVal
  BODlt : PyVal
  CODut : PyVal
  CODlt : PyVal
  LIN_BODe : PyVal
  LIN_BODi : PyVal
  LIN_CODe : PyVal
  LIN_CODi : PyVal
deriving DecidableEq, Repr

/-- Columns after `calculate_deviation_columns` (linearisation.py). -/
structure DevColsRow extends LinRow where
  BODut_BODeffl : PyVal
  CODut_CODeffl : PyVal
  BODlt_BODeffl : PyVal
  CODlt_CODeffl : PyVal
deriving DecidableEq, Repr

/-- Columns after `calculate_reduction_columns` (linearisation.py). -/
structure DevRow extends DevColsRow where
  bodp : PyVal
  codp : PyVal
deriving DecidableEq, Repr

/-- Columns after `calculate_flag_conditions` (compliance.py). -/
structure FlagRow extends DevRow where
  flag_BODlt : Bool
  flag_BODut : Bool
  flag_CODlt : Bool
  flag_reduction_bod : Bool
  flag_reduction_cod : Bool
  flag_CODut : Bool
deriving DecidableEq, Repr

/-- Columns after `calculate_psi_values` (metrics.py). -/
structure PsiRow extends FlagRow where
  bod_psi_1_min : PyVal
  bod_psi_1 : PyVal
  bod_psi_2 : PyVal
  bod_psi_3 : PyVal
  cod_psi_1_min : PyVal
  cod_psi_1 : PyVal
  cod_psi_2 : PyVal
  cod_psi_3 : PyVal
deriving DecidableEq, Repr

/-- Columns after `calculate_metric_values` (metrics.py). -/
structure MetricRow extends PsiRow where
  metric_lut : PyVal
  metric_max : PyVal
deriving DecidableEq, Repr

/-- Columns after `determine_failure_type` (metrics.py): the fully
processed row. -/
structure Row extends MetricRow where
  metric : PyVal
  fail_type : String
  fail_source : String
  bod_lut_exc : Bool
  bod_max_lim : Bool
  cod_lut_exc : Bool
  cod_max_lim : Bool
  c_BOD_2 : Bool
  c_BOD_3 : Bool
deriving DecidableEq, Repr

/-- Embeds `calculate_deviation_columns` (linearisation.py), row-wise:
signed differences between the limit scalars and the linearised effluent. -/
def calculate_deviation_columns (l : LinRow) : DevColsRow :=
  { toLinRow := l
    BODut_BODeffl := PyVal.sub l.BODut l.LIN_BODe
    CODut_CODeffl := PyVal.sub l.CODut l.LIN_CODe
    BODlt_BODeffl := PyVal.sub l.BODlt l.LIN_BODe
    CODlt_CODeffl := PyVal.sub l.CODlt l.LIN_CODe }

/-- Embeds `calculate_reduction_columns` (linearisation.py), row-wise:
`bodp = -(bod_pc * LIN_BODi) + LIN_BODi - LIN_BODe` (and likewise `codp`),
associated exactly as the Python expression parses. -/
def calculate_reduction_columns (d : DevColsRow) (bod_pc cod_pc : ℚ) : DevRow :=
  { toDevColsRow := d
    bodp := PyVal.sub (PyVal.add (PyVal.neg (PyVal.mul (PyVal.rat bod_pc) d.LIN_BODi))
                        d.LIN_BODi) d.LIN_BODe
    codp := PyVal.sub (PyVal.add (PyVal.neg (PyVal.mul (PyVal.rat cod_pc) d.LIN_CODi))
                        d.LIN_CODi) d.LIN_CODe }

/-- Embeds `calculate_flag_conditions` (compliance.py), row-wise:
each flag is a plain `>= 0` comparison on the corresponding column. -/
def calculate_flag_conditions (d : DevRow) : FlagRow :=
  { toDevRow := d
    flag_BODlt := PyVal.ge0 d.BODlt_BODeffl
    flag_BODut := PyVal.ge0 d.BODut_BODeffl
    flag_CODlt := PyVal.ge0 d.CODlt_CODeffl
    flag_reduction_bod := PyVal.ge0 d.bodp
    flag_reduction_cod := PyVal.ge0 d.codp
    flag_CODut := PyVal.ge0 d.CODut_CODeffl }

/-- Embeds `calculate_psi_values` (metrics.py), row-wise: the ordered min/max
compositions over deviation and reduction columns (pandas row-wise
min/max, which skip NaN). -/
def calculate_psi_values (f : FlagRow) : PsiRow :=
  { toFlagRow := f
    bod_psi_1_min := PyVal.pmin f.BODlt_BODeffl f.bodp
    bod_psi_1 := PyVal.pmax f.BODlt_BODeffl (PyVal.pmin f.BODlt_BODeffl f.bodp)
    bod_psi_2 := PyVal.pmin (PyVal.pmin f.BODlt_BODeffl f.bodp) f.BODut_BODeffl
    bod_psi_3 := PyVal.pmin f.BODut_BODeffl f.bodp
    cod_psi_1_min := PyVal.pmin f.CODlt_CODeffl f.codp
    cod_psi_1 := PyVal.pmax f.CODlt_CODeffl (PyVal.pmin f.CODlt_CODeffl f.codp)
    cod_psi_2 := PyVal.pmin (PyVal.pmin f.CODlt_CODeffl f.codp) f.CODut_CODeffl
    cod_psi_3 := PyVal.pmin f.CODut_CODeffl f.codp }

/-- Embeds `calculate_metric_values` (metrics.py), row-wise:
`metric_lut = min(bod_psi_2, cod_psi_2)`, `metric_max = min(bod_psi_3, cod_psi_3)`. -/
def calculate_metric_values (p : PsiRow) : MetricRow :=
  { toPsiRow := p
    metric_lut := PyVal.pmin p.bod_psi_2 p.cod_psi_2
    metric_max := PyVal.pmin p.bod_psi_3 p.cod_psi_3 }

/-- BOD LUT-exceedance predicate, as written in `determine_failure_type`
and `calculate_failure_conditions`. -/
def bod_lut_exc_cond (m : MetricRow) : Bool :=
  PyVal.lt0 m.bod_psi_2 && !m.flag_BODlt && !m.flag_reduction_bod && m.flag_BODut

/-- BOD max-limit-failure predicate, as written in the source. -/
def bod_max_lim_cond (m : MetricRow) : Bool :=
  PyVal.lt0 m.bod_psi_3 && !m.flag_BODlt && !m.flag_BODut && !m.flag_reduction_bod

/-- COD LUT-exceedance predicate, as written in the source. -/
def cod_lut_exc_cond (m : MetricRow) : Bool :=
  PyVal.lt0 m.cod_psi_2 && !m.flag_CODlt && !m.flag_reduction_cod && m.flag_CODut

/-- COD max-limit-failure predicate, as written in the source. -/
def cod_max_lim_cond (m : MetricRow) : Bool :=
  PyVal.lt0 m.cod_psi_3 && !m.flag_CODlt && !m.flag_CODut && !m.flag_reduction_cod

/-- Embeds `numpy.select(conditions, choices, default)` on one row: the choice of
the first true condition, else the default. -/
def np_select {α : Type} : List (Bool × α) → α → α
  | [], d => d
  | (c, v) :: rest, d => if c then v else np_select rest d

/-- The `fail_type` selection of `determine_failure_type`: `np.select` over
the condition list `[bod_lut_exc, bod_max_lim, cod_lut_exc, cod_max_lim]`
with values `[LUT, Max, LUT, Max]` and default `Compliant`, applied to
given row-level condition booleans. -/
def fail_type_of_conds (bLut bMax cLut cMax : Bool) : String :=
  np_select [(bLut, "LUT exceedance"), (bMax, "Max Limit Failure"),
             (cLut, "LUT exceedance"), (cMax, "Max Limit Failure")] "Compliant"

/-- Embeds `determine_failure_type` (metrics.py), row-wise: computes the four
failure conditions, selects `metric`, `fail_type` and `fail_source` via
`np.select`, and stores the intermediate flags. -/
def determine_failure_type (m : MetricRow) : Row :=
  let bLut := bod_lut_exc_cond m
  let bMax := bod_max_lim_cond m
  let cLut := cod_lut_exc_cond m
  let cMax := cod_max_lim_cond m
  let condition_2 := bLut || cLut
  let condition_3 := bMax || cMax
  let cond_lut := condition_2 && !condition_3
  let cond_max := condition_2 && condition_3
  { toMetricRow := m
    metric := np_select [(cond_lut, m.metric_lut), (cond_max, m.metric_max)]
                (PyVal.pmax m.bod_psi_1 m.cod_psi_1)
    fail_type := fail_type_of_conds bLut bMax cLut cMax
    fail_source := np_select [(bLut || bMax, "BOD"), (cLut || cMax, "COD")] "None"
    bod_lut_exc := bLut
    bod_max_lim := bMax
    cod_lut_exc := cLut
    cod_max_lim := cMax
    c_BOD_2 := PyVal.ltB m.bod_psi_2 m.cod_psi_2
    c_BOD_3 := PyVal.ltB m.bod_psi_3 m.cod_psi_3 }

/-- Embeds `process_dataframe` (metrics.py): the full pipeline.  `validate_dataframe`
rejects an empty frame (DataValidationError), modelled as `none`; missing
columns cannot occur in the typed model. -/
def process_dataframe (df : List RawRow) (limits : ComplianceLimits) : Option (List Row) :=
  if df.isEmpty then none
  else
    let bl := calculate_bod_limits df limits
    let cl := calculate_cod_limits df limits
    let lb := linearise_bod df
    let lc := linearise_cod df
    some ((List.zip lb lc).map (fun p =>
      let lin : LinRow :=
        { BODut := bl.1, BODlt := bl.2, CODut := cl.1, CODlt := cl.2,
          LIN_BODe := p.1.1, LIN_BODi := p.1.2,
          LIN_CODe := p.2.1, LIN_CODi := p.2.2 }
      determine_failure_type
        (calculate_metric_values
          (calculate_psi_values
            (calculate_flag_conditions
              (calculate_reduction_columns (calculate_deviation_columns lin)
                limits.bod_pc limits.cod_pc))))))

/-- Python `round(x, 2)`: round half to even at two decimal places
(exact on the rational values arising in the claims). -/
def bankersRound (x : ℚ) : ℤ :=
  let f := ⌊x⌋
  let r := x - f
  if r < 1/2 then f
  else if 1/2 < r then f + 1
  else if f % 2 = 0 then f else f + 1

/-- Embeds `round(v, 2)` applied to a duration value. -/
def round2 (x : ℚ) : ℚ := (bankersRound (x * 100) : ℚ) / 100

/-- The default `failure_types` tuple of `compute_recovery_time`. -/
def failureTypesDefault : List String := ["Max Limit Failure", "LUT exceedance"]

/-- Embeds `SimulationConfig.TIME_STEP` (config.py). -/
def TIME_STEP : ℚ := 8/100

/-- Embeds `SimulationConfig.HOURS_PER_DAY` (config.py). -/
def HOURS_PER_DAY : ℚ := 24

/-- Embeds `SimulationConfig.MINUTES_PER_HOUR` (config.py). -/
def MINUTES_PER_HOUR : ℚ := 60

/-- The scan loop of `compute_recovery_time` (recovery.py): run-length
counter over the series; on a transition out of non-compliance (or at end
of series with an open run) emit `round(duration * time_step, 2)`. -/
def recovery_loop (series : List String) (fts : List String) (ts : ℚ)
    (dur : ℕ) (inNc : Bool) (acc : List ℚ) : List ℚ :=
  match series with
  | [] => if inNc then acc ++ [round2 ((dur : ℚ) * ts)] else acc
  | ft :: rest =>
    if ft ∈ fts then
      recovery_loop rest fts ts (dur + 1) true acc
    else if inNc then
      recovery_loop rest fts ts 0 false (acc ++ [round2 ((dur : ℚ) * ts)])
    else
      recovery_loop rest fts ts 0 false acc

/-- Embeds `compute_recovery_time` (recovery.py). -/
def compute_recovery_time (series : List String) (time_step : ℚ := TIME_STEP)
    (failure_types : List String := failureTypesDefault) : List ℚ :=
  recovery_loop series failure_types time_step 0 false []

/-- Embeds `compute_recovery_time_minutes` (recovery.py): recovery times rescaled
by the fixed day→hour→minute multipliers. -/
def compute_recovery_time_minutes (series : List String)
    (time_step : ℚ := TIME_STEP) : List ℚ :=
  (compute_recovery_time series time_step).map
    (fun t => t * HOURS_PER_DAY * MINUTES_PER_HOUR)

/-- Embeds `compute_mean_recovery_time` (recovery.py): mean of the recovery times
(optionally in minutes); defined as 0.0 when there are no events. -/
def compute_mean_recovery_time (series : List String)
    (time_step : ℚ := TIME_STEP) (convert_to_minutes : Bool := true) : ℚ :=
  let times :=
    if convert_to_minutes then compute_recovery_time_minutes series time_step
    else compute_recovery_time series time_step
  if times = [] then 0
  else times.sum / (times.length : ℚ)

/-- pandas `Series.var()` (ddof = 1): NaN (`none`) on fewer than two
observations, else the sum of squared deviations from the mean divided
by `n - 1`. -/
def sampleVar (l : List ℚ) : Option ℚ :=
  if l.length ≤ 1 then none
  else
    let m := l.sum / (l.length : ℚ)
    some ((l.map (fun x => (x - m) ^ 2)).sum / ((l.length : ℚ) - 1))

/-- pandas `Series.rolling(window).var()`: position `i` holds the sample
variance of the window ending at `i` once `i + 1 ≥ window`, NaN before
(and NaN for window 1, where the sample variance is undefined). -/
def rolling_var (window : ℕ) (l : List ℚ) : List (Option ℚ) :=
  (List.range l.length).map (fun i =>
    if i + 1 < window then none
    else sampleVar ((l.drop (i + 1 - window)).take window))

/-- Embeds `non_stationarity_score` (nonstationarity.py).  `none` models NaN.
Input series are modelled NaN-free, so the `dropna()` step is the
identity; both length guards of the source are kept.  The final mean
skips NaN entries (pandas `skipna`), and is NaN on an all-NaN series. -/
def non_stationarity_score (series : List ℚ) (window : ℕ := 30) : Option ℚ :=
  if series.length < window then none
  else
    let clean := series
    if clean.length < window then none
    else
      match sampleVar clean with
      | none => none
      | some v =>
        if v = 0 then some 0
        else
          let devs := ((rolling_var window clean).filterMap id).map (fun x => |x - v|)
          if devs.length = 0 then none
          else some ((devs.sum / (devs.length : ℚ)) / v)

/-- A two-row Dataset whose second row makes `bod_lut_exc` and
`cod_max_lim` hold simultaneously (BOD effluent between the two BOD
thresholds, COD effluent above the COD upper threshold, both reduction
targets missed). -/
def ds1 : List RawRow :=
  [{ bod1 := 100, cod1 := 500, bod31 := 10, cod31 := 10, snh1 := 0, snh31 := 0 },
   { bod1 := 100, cod1 := 500, bod31 := 40, cod31 := 400, snh1 := 0, snh31 := 0 }]

/-- A one-row Dataset with `max(bod1) == min(bod31)` (zero dynamic range
for BOD): the divisor of the limit and linearisation formulas is exactly 0. -/
def dsDeg : List RawRow :=
  [{ bod1 := 5, cod1 := 10, bod31 := 5, cod31 := 2, snh1 := 0, snh31 := 0 }]

/-- Test-input builder: a `MetricRow` with given psi-2/psi-3 values and
flags; all other columns zero (they do not enter the failure predicates). -/
def mkMetricRow (bp2 bp3 cp2 cp3 : PyVal)
    (fBODlt fBODut fCODlt fCODut fRedB fRedC : Bool) : MetricRow :=
  { BODut := PyVal.rat 0, BODlt := PyVal.rat 0, CODut := PyVal.rat 0, CODlt := PyVal.rat 0,
    LIN_BODe := PyVal.rat 0, LIN_BODi := PyVal.rat 0,
    LIN_CODe := PyVal.rat 0, LIN_CODi := PyVal.rat 0,
    BODut_BODeffl := PyVal.rat 0, CODut_CODeffl := PyVal.rat 0,
    BODlt_BODeffl := PyVal.rat 0, CODlt_CODeffl := PyVal.rat 0,
    bodp := PyVal.rat 0, codp := PyVal.rat 0,
    flag_BODlt := fBODlt, flag_BODut := fBODut, flag_CODlt := fCODlt,
    flag_reduction_bod := fRedB, flag_reduction_cod := fRedC, flag_CODut := fCODut,
    bod_psi_1_min := PyVal.rat 0, bod_psi_1 := PyVal.rat 0,
    bod_psi_2 := bp2, bod_psi_3 := bp3,
    cod_psi_1_min := PyVal.rat 0, cod_psi_1 := PyVal.rat 0,
    cod_psi_2 := cp2, cod_psi_3 := cp3,
    metric_lut := PyVal.rat 0, metric_max := PyVal.rat 0 }

/-- A row where only `bod_lut_exc` fires. -/
def rowLut : MetricRow :=
  mkMetricRow (PyVal.rat (-1)) (PyVal.rat 1) (PyVal.rat 1) (PyVal.rat 1)
    false true false false false false

/-- A row where only `bod_max_lim` fires. -/
def rowMax : MetricRow :=
  mkMetricRow (PyVal.rat 1) (PyVal.rat (-1)) (PyVal.rat 1) (PyVal.rat 1)
    false false false false false false

/-- A row where no failure predicate fires. -/
def rowNone : MetricRow :=
  mkMetricRow (PyVal.rat 1) (PyVal.rat 1) (PyVal.rat 1) (PyVal.rat 1)
    true true true true true true

/-- A `FlagRow` with finite deviation and reduction values. -/
def frowW : FlagRow :=
  { BODut := PyVal.rat 0, BODlt := PyVal.rat 0, CODut := PyVal.rat 0, CODlt := PyVal.rat 0,
    LIN_BODe := PyVal.rat 0, LIN_BODi := PyVal.rat 0,
    LIN_CODe := PyVal.rat 0, LIN_CODi := PyVal.rat 0,
    BODut_BODeffl := PyVal.rat 5, CODut_CODeffl := PyVal.rat 6,
    BODlt_BODeffl := PyVal.rat 2, CODlt_CODeffl := PyVal.rat 3,
    bodp := PyVal.rat 1, codp := PyVal.rat 4,
    flag_BODlt := true, flag_BODut := true, flag_CODlt := true,
    flag_reduction_bod := true, flag_reduction_cod := true, flag_CODut := true }

/-- Case split for rational absolute value, used to evaluate the
`abs(...)` of the source formulas at concrete inputs. -/
theorem ratAbsIte (q : ℚ) : |q| = if 0 ≤ q then q else -q := by
  rcases le_or_lt 0 q with h | h
  · rw [abs_of_nonneg h, if_pos h]
  · rw [abs_of_neg h, if_neg (not_le.mpr h)]

/-- C1 counterexample: in the processed Dataset `ds1`, row 1 satisfies the
max-limit predicate `cod_max_lim` (so `any_max` is true), yet its
`fail_type` is "LUT exceedance", not "Max Limit Failure": the claimed
precedence of max-limit over LUT across pollutants does not hold. -/
theorem C1_fail_type_counterexample :
    ((process_dataframe ds1 defaultLimits).bind (fun rows => rows[1]?)).map
      (fun r => (r.bod_lut_exc, r.cod_max_lim, r.fail_type)) =
      some (true, true, "LUT exceedance") := by
  norm_num [process_dataframe, calculate_bod_limits, calculate_cod_limits,
    linearise_bod, linearise_cod, seriesMin, seriesMax,
    calculate_deviation_columns, calculate_reduction_columns,
    calculate_flag_conditions, calculate_psi_values, calculate_metric_values,
    determine_failure_type, bod_lut_exc_cond, bod_max_lim_cond,
    cod_lut_exc_cond, cod_max_lim_cond, np_select, fail_type_of_conds,
    ds1, defaultLimits, PyVal.sub, PyVal.add, PyVal.neg, PyVal.mul,
    PyVal.div, PyVal.pabs, PyVal.ge0, PyVal.lt0, PyVal.ltB,
    PyVal.pmin, PyVal.pmax, min_def, max_def, ratAbsIte]

/-- C6: the two recovery-time round trips of the spec: the series
`[Compliant, LUT exceedance, LUT exceedance, Compliant, Max Limit Failure,
Compliant]` with time step 1.0 yields `[2.0, 1.0]`, and
`[Compliant, LUT exceedance, LUT exceedance]` with time step 0.5 yields
`[1.0]` (the trailing open run is counted). -/
theorem C6_recovery_round_trip :
    compute_recovery_time ["Compliant", "LUT exceedance", "LUT exceedance",
      "Compliant", "Max Limit Failure", "Compliant"] 1 = [2, 1] ∧
    compute_recovery_time ["Compliant", "LUT exceedance", "LUT exceedance"]
      (1/2) = [1] := by
  constructor <;>
    norm_num [compute_recovery_time, recovery_loop, failureTypesDefault,
      round2, bankersRound] <;> decide

/-- C8 counterexample: the constant one-element series `[5]` with window 1
has length ≥ window, but the score is NaN (`none`), not 0.0: the sample
variance of a single observation is undefined (pandas ddof = 1), so the
`overall_var == 0` branch is not taken. -/
theorem C8_constant_series_counterexample :
    non_stationarity_score [5] 1 = none := by
  norm_num [non_stationarity_score, sampleVar]

/-- C2: at the failing input `dsDeg` (where `max(bod1) = min(bod31) = 5`)
the limit stage returns `BODut = BODlt = inf` and the linearisation stage
returns `LIN_BODe = LIN_BODi = NaN` — no error of any kind is raised (the
functions are total, and no ComputationError exists in the codebase) —
and the full pipeline silently consumes these values in the boolean flag
predicates (every NaN comparison evaluating False). -/
theorem C2_zero_division_silent :
    calculate_bod_limits dsDeg defaultLimits = (PyVal.inf, PyVal.inf) ∧
    linearise_bod dsDeg = [(PyVal.nan, PyVal.nan)] ∧
    (process_dataframe dsDeg defaultLimits).map (fun rows => rows.map (fun r =>
      (r.flag_BODlt, r.flag_BODut, r.flag_reduction_bod, r.fail_type))) =
      some [(false, false, false, "Compliant")] := by
  refine ⟨?_, ?_, ?_⟩ <;>
    norm_num [process_dataframe, calculate_bod_limits, calculate_cod_limits,
      linearise_bod, linearise_cod, seriesMin, seriesMax,
      calculate_deviation_columns, calculate_reduction_columns,
      calculate_flag_conditions, calculate_psi_values, calculate_metric_values,
      determine_failure_type, bod_lut_exc_cond, bod_max_lim_cond,
      cod_lut_exc_cond, cod_max_lim_cond, np_select, fail_type_of_conds,
      dsDeg, defaultLimits, PyVal.sub, PyVal.add, PyVal.neg, PyVal.mul,
      PyVal.div, PyVal.pabs, PyVal.ge0, PyVal.lt0, PyVal.ltB,
      PyVal.pmin, PyVal.pmax, min_def, max_def, ratAbsIte]

/-- C4 counterexample: presenting the classifier's `np.select` stage with
both BOD conditions simultaneously true yields "LUT exceedance", not
"Max Limit Failure": within the same pollutant the LUT condition is
checked first, so the max-limit predicate does not win. -/
theorem C4_conds_counterexample :
    fail_type_of_conds true true false false = "LUT exceedance" := by
  simp [fail_type_of_conds, np_select]

/-- C1 (amended): `fail_type` is assigned by first-match over the ordered
condition list `[bod_lut_exc, bod_max_lim, cod_lut_exc, cod_max_lim]`
(values LUT, Max, LUT, Max), default "Compliant".  The spec-style rules
hold whenever `any_lut` and `any_max` do not both fire; when both fire,
the first-match order decides (so BOD's LUT predicate beats COD's
max-limit predicate). -/
theorem C1_fail_type_first_match (r : MetricRow) :
    (determine_failure_type r).fail_type =
      (if bod_lut_exc_cond r then "LUT exceedance"
       else if bod_max_lim_cond r then "Max Limit Failure"
       else if cod_lut_exc_cond r then "LUT exceedance"
       else if cod_max_lim_cond r then "Max Limit Failure"
       else "Compliant") ∧
    ((bod_lut_exc_cond r || cod_lut_exc_cond r) = true →
      (bod_max_lim_cond r || cod_max_lim_cond r) = false →
      (determine_failure_type r).fail_type = "LUT exceedance") ∧
    ((bod_lut_exc_cond r || cod_lut_exc_cond r) = false →
      (bod_max_lim_cond r || cod_max_lim_cond r) = true →
      (determine_failure_type r).fail_type = "Max Limit Failure") ∧
    ((bod_lut_exc_cond r || cod_lut_exc_cond r) = false →
      (bod_max_lim_cond r || cod_max_lim_cond r) = false →
      (determine_failure_type r).fail_type = "Compliant") := by
  cases h1 : bod_lut_exc_cond r <;> cases h2 : bod_max_lim_cond r <;>
    cases h3 : cod_lut_exc_cond r <;> cases h4 : cod_max_lim_cond r <;>
      simp [determine_failure_type, fail_type_of_conds, np_select, h1, h2, h3, h4]

/-- Witness for C1 (amended): three concrete rows, one per spec-style rule. -/
theorem C1_fail_type_first_match_witness :
    (determine_failure_type rowLut).fail_type = "LUT exceedance" ∧
    (determine_failure_type rowMax).fail_type = "Max Limit Failure" ∧
    (determine_failure_type rowNone).fail_type = "Compliant" :=
  ⟨(C1_fail_type_first_match rowLut).2.1
      (by norm_num [bod_lut_exc_cond, cod_lut_exc_cond, rowLut, mkMetricRow, PyVal.lt0])
      (by norm_num [bod_max_lim_cond, cod_max_lim_cond, rowLut, mkMetricRow, PyVal.lt0]),
   (C1_fail_type_first_match rowMax).2.2.1
      (by norm_num [bod_lut_exc_cond, cod_lut_exc_cond, rowMax, mkMetricRow, PyVal.lt0])
      (by norm_num [bod_max_lim_cond, cod_max_lim_cond, rowMax, mkMetricRow, PyVal.lt0]),
   (C1_fail_type_first_match rowNone).2.2.2
      (by norm_num [bod_lut_exc_cond, cod_lut_exc_cond, rowNone, mkMetricRow, PyVal.lt0])
      (by norm_num [bod_max_lim_cond, cod_max_lim_cond, rowNone, mkMetricRow, PyVal.lt0])⟩

/-- Projection lemma: `calculate_metric_values` sets `metric_lut`. -/
theorem cmv_metric_lut (p : PsiRow) :
    (calculate_metric_values p).metric_lut = PyVal.pmin p.bod_psi_2 p.cod_psi_2 := rfl

/-- Projection lemma: `calculate_metric_values` sets `metric_max`. -/
theorem cmv_metric_max (p : PsiRow) :
    (calculate_metric_values p).metric_max = PyVal.pmin p.bod_psi_3 p.cod_psi_3 := rfl

/-- Projection lemma: `calculate_metric_values` keeps `bod_psi_1`. -/
theorem cmv_bod_psi_1 (p : PsiRow) :
    (calculate_metric_values p).bod_psi_1 = p.bod_psi_1 := rfl

/-- Projection lemma: `calculate_metric_values` keeps `cod_psi_1`. -/
theorem cmv_cod_psi_1 (p : PsiRow) :
    (calculate_metric_values p).cod_psi_1 = p.cod_psi_1 := rfl

/-- C3: the selected numeric `metric` equals `min(bod_psi_2, cod_psi_2)`
when a LUT predicate holds and no max-limit predicate holds, equals
`min(bod_psi_3, cod_psi_3)` when a LUT predicate and a max-limit predicate
both hold, and in every other case (including rows where only a max-limit
predicate holds) equals the fallback `max(bod_psi_1, cod_psi_1)`. -/
theorem C3_metric_selection (p : PsiRow) :
    (determine_failure_type (calculate_metric_values p)).metric =
      (if (bod_lut_exc_cond (calculate_metric_values p) ||
            cod_lut_exc_cond (calculate_metric_values p)) &&
          !(bod_max_lim_cond (calculate_metric_values p) ||
            cod_max_lim_cond (calculate_metric_values p)) then
         PyVal.pmin p.bod_psi_2 p.cod_psi_2
       else if (bod_lut_exc_cond (calculate_metric_values p) ||
            cod_lut_exc_cond (calculate_metric_values p)) &&
          (bod_max_lim_cond (calculate_metric_values p) ||
            cod_max_lim_cond (calculate_metric_values p)) then
         PyVal.pmin p.bod_psi_3 p.cod_psi_3
       else PyVal.pmax p.bod_psi_1 p.cod_psi_1) := by
  cases h1 : bod_lut_exc_cond (calculate_metric_values p) <;>
    cases h2 : bod_max_lim_cond (calculate_metric_values p) <;>
      cases h3 : cod_lut_exc_cond (calculate_metric_values p) <;>
        cases h4 : cod_max_lim_cond (calculate_metric_values p) <;>
          simp [determine_failure_type, np_select, h1, h2, h3, h4,
            cmv_metric_lut, cmv_metric_max, cmv_bod_psi_1, cmv_cod_psi_1]

/-- C4 (amended): if both BOD conditions were presented simultaneously to
the classifier's first-match selection, the result would be
"LUT exceedance" (the LUT condition is checked first within a pollutant),
whatever the COD conditions; moreover the two BOD predicates are mutually
exclusive by formula, so no row realises that situation. -/
theorem C4_lut_checked_first :
    (∀ c d : Bool, fail_type_of_conds true true c d = "LUT exceedance") ∧
    (∀ m : MetricRow, (bod_lut_exc_cond m && bod_max_lim_cond m) = false) := by
  constructor
  · intro c d
    simp [fail_type_of_conds, np_select]
  · intro m
    cases h : m.flag_BODut <;>
      simp [bod_lut_exc_cond, bod_max_lim_cond, h]

/-- C5: for every row, `fail_type` is exactly one of Compliant /
LUT exceedance / Max Limit Failure, `fail_source` is exactly one of
None / BOD / COD, and `fail_source = "None"` holds iff
`fail_type = "Compliant"`. -/
theorem C5_classification_exhaustive (m : MetricRow) :
    ((determine_failure_type m).fail_type = "Compliant" ∨
     (determine_failure_type m).fail_type = "LUT exceedance" ∨
     (determine_failure_type m).fail_type = "Max Limit Failure") ∧
    ((determine_failure_type m).fail_source = "None" ∨
     (determine_failure_type m).fail_source = "BOD" ∨
     (determine_failure_type m).fail_source = "COD") ∧
    (((determine_failure_type m).fail_source == "None") =
     ((determine_failure_type m).fail_type == "Compliant")) := by
  cases h1 : bod_lut_exc_cond m <;> cases h2 : bod_max_lim_cond m <;>
    cases h3 : cod_lut_exc_cond m <;> cases h4 : cod_max_lim_cond m <;>
      simp [determine_failure_type, fail_type_of_conds, np_select, h1, h2, h3, h4]

/-- C9: for each pollutant, the two failure predicates are mutually
exclusive by formula: the LUT predicate requires the upper flag to be
True while the max-limit predicate requires it to be False. -/
theorem C9_predicates_mutually_exclusive (m : MetricRow) :
    (bod_lut_exc_cond m && bod_max_lim_cond m) = false ∧
    (cod_lut_exc_cond m && cod_max_lim_cond m) = false := by
  constructor
  · cases h : m.flag_BODut <;> simp [bod_lut_exc_cond, bod_max_lim_cond, h]
  · cases h : m.flag_CODut <;> simp [cod_lut_exc_cond, cod_max_lim_cond, h]

/-- The recovery scan emits nothing on a series with no non-compliant
value, starting outside a non-compliance run. -/
theorem recovery_loop_compliant (ts : ℚ) (acc : List ℚ) :
    ∀ s : List String, (∀ x ∈ s, x = "Compliant") →
      recovery_loop s failureTypesDefault ts 0 false acc = acc := by
  intro s
  induction s with
  | nil => intro _; simp [recovery_loop]
  | cons x rest ih =>
    intro h
    have hx : x = "Compliant" := h x (List.mem_cons_self x rest)
    have hmem : x ∉ failureTypesDefault := by
      subst hx; simp [failureTypesDefault]
    rw [recovery_loop, if_neg hmem]
    simpa using ih (fun y hy => h y (List.mem_cons_of_mem x hy))

/-- C7: on a series with no non-compliant value (all rows Compliant),
`compute_recovery_time` returns the empty list and
`compute_mean_recovery_time` returns 0.0 (with or without the minutes
conversion): the empty case is zero events, not an error. -/
theorem C7_all_compliant_empty (s : List String) (ts : ℚ) (conv : Bool)
    (h : ∀ x ∈ s, x = "Compliant") :
    compute_recovery_time s ts = [] ∧
    compute_mean_recovery_time s ts conv = 0 := by
  have h0 : compute_recovery_time s ts = [] :=
    recovery_loop_compliant ts [] s h
  refine ⟨h0, ?_⟩
  cases conv <;>
    simp [compute_mean_recovery_time, compute_recovery_time_minutes, h0]

/-- Witness for C7 at a concrete all-Compliant series. -/
theorem C7_all_compliant_empty_witness :
    compute_recovery_time ["Compliant", "Compliant"] 1 = [] ∧
    compute_mean_recovery_time ["Compliant", "Compliant"] 1 true = 0 :=
  C7_all_compliant_empty ["Compliant", "Compliant"] 1 true (by simp)

/-- The sample variance of a constant series of length at least two is
exactly zero. -/
theorem sampleVar_const (l : List ℚ) (c : ℚ) (h : ∀ x ∈ l, x = c)
    (hlen : 2 ≤ l.length) : sampleVar l = some 0 := by
  have hl : ¬ l.length ≤ 1 := by omega
  have hn0 : (l.length : ℚ) ≠ 0 := Nat.cast_ne_zero.mpr (by omega)
  have hrep : l = List.replicate l.length c := List.eq_replicate_length.mpr h
  have hsum : l.sum = (l.length : ℚ) * c := by
    conv_lhs => rw [hrep]
    rw [List.sum_replicate, nsmul_eq_mul]
  have hmean : l.sum / (l.length : ℚ) = c := by
    rw [hsum, mul_comm, mul_div_assoc, div_self hn0, mul_one]
  have hzero : (l.map (fun x => (x - l.sum / (l.length : ℚ)) ^ 2)).sum = 0 := by
    apply List.sum_eq_zero
    intro y hy
    rcases List.mem_map.mp hy with ⟨x, hx, rfl⟩
    rw [h x hx, hmean]
    ring
  simp only [sampleVar, if_neg hl, hzero, zero_div]

/-- C8 (amended): the score is NaN (`none`) whenever the series is shorter
than the window, and is exactly 0.0 on a constant series whose length is
at least the window and at least 2 (so the overall sample variance is the
defined value 0, not NaN); `window ≥ 1` because pandas rejects window 0. -/
theorem C8_score_guards (l : List ℚ) (w : ℕ) (c : ℚ) :
    (l.length < w → non_stationarity_score l w = none) ∧
    (1 ≤ w → w ≤ l.length → 2 ≤ l.length → (∀ x ∈ l, x = c) →
      non_stationarity_score l w = some 0) := by
  constructor
  · intro h
    simp only [non_stationarity_score, if_pos h]
  · intro _ h2 h3 h4
    have hv := sampleVar_const l c h4 h3
    simp [non_stationarity_score, if_neg (not_lt.mpr h2), hv]

/-- Witness for C8 (amended): a too-short series gives NaN; the constant
two-element series `[3, 3]` with window 2 gives 0.0. -/
theorem C8_score_guards_witness :
    non_stationarity_score [4] 2 = none ∧
    non_stationarity_score [3, 3] 2 = some 0 :=
  ⟨(C8_score_guards [4] 2 0).1 (by simp),
   (C8_score_guards [3, 3] 2 3).2 (by simp) (by simp) (by simp) (by simp)⟩

/-- Absorption on the pandas row-wise min/max: for a non-NaN value `a`,
`max(a, min(a, b)) = a`. -/
theorem pmax_pmin_absorb (a b : PyVal) (ha : a ≠ PyVal.nan) :
    PyVal.pmax a (PyVal.pmin a b) = a := by
  cases a <;> cases b <;> simp_all [PyVal.pmin, PyVal.pmax]

/-- C10: for rows whose lower deviations and reductions are not NaN,
`bod_psi_1 = max(BODlt-BODeffl, min(BODlt-BODeffl, bodp))` collapses by
absorption to the lower deviation itself (likewise for COD), so the
classifier's fallback metric `max(bod_psi_1, cod_psi_1)` equals the
maximum of the two lower deviations. -/
theorem C10_psi1_absorption (f : FlagRow)
    (h1 : f.BODlt_BODeffl ≠ PyVal.nan) (h2 : f.CODlt_CODeffl ≠ PyVal.nan)
    (h3 : f.bodp ≠ PyVal.nan) (h4 : f.codp ≠ PyVal.nan) :
    (calculate_psi_values f).bod_psi_1 = f.BODlt_BODeffl ∧
    (calculate_psi_values f).cod_psi_1 = f.CODlt_CODeffl ∧
    PyVal.pmax (calculate_psi_values f).bod_psi_1
        (calculate_psi_values f).cod_psi_1 =
      PyVal.pmax f.BODlt_BODeffl f.CODlt_CODeffl := by
  have hb : (calculate_psi_values f).bod_psi_1 = f.BODlt_BODeffl :=
    pmax_pmin_absorb f.BODlt_BODeffl f.bodp h1
  have hc : (calculate_psi_values f).cod_psi_1 = f.CODlt_CODeffl :=
    pmax_pmin_absorb f.CODlt_CODeffl f.codp h2
  exact ⟨hb, hc, by rw [hb, hc]⟩

/-- Witness for C10 at a concrete row with finite values. -/
theorem C10_psi1_absorption_witness :
    (calculate_psi_values frowW).bod_psi_1 = frowW.BODlt_BODeffl ∧
    (calculate_psi_values frowW).cod_psi_1 = frowW.CODlt_CODeffl ∧
    PyVal.pmax (calculate_psi_values frowW).bod_psi_1
        (calculate_psi_values frowW).cod_psi_1 =
      PyVal.pmax frowW.BODlt_BODeffl frowW.CODlt_CODeffl :=
  C10_psi1_absorption frowW (by simp [frowW]) (by simp [frowW])
    (by simp [frowW]) (by simp [frowW])
